import Mathlib

/-!
Shallow embedding of the onosproject/topo-discovery discovery controller
and its three reconcilers (ports, links, hosts), together with theorems
settling the specification claims about them.

Conventions of the embedding:
* Go maps are modelled as functions into Option (absent key = none);
  maps whose iteration order matters are modelled as lists.
* Machine integers (uint32/uint64 timestamps, port numbers) are Nat.
* Calls against the topology catalog (onos-topo) are modelled against a
  catalog value of type String -> Option TObj; a create that hits an
  existing identifier fails with an already-exists error, mirroring the
  create-if-absent contract of the catalog.
* Wall-clock reads (time.Now) become explicit parameters.
-/

namespace TopoDiscovery

/-- Southbound ingress link observation (pkg/southbound/links.go, struct Link). -/
structure SBLink where
  ingressDevice : String
  ingressPort : Nat
  egressDevice : String
  egressPort : Nat
  createTime : Nat
deriving Repr, DecidableEq

/-- Result of a link query against the link local agent
(pkg/southbound/links.go, struct LinkReport).  Go stores the links in a map
keyed by ingress port; the embedding keeps the list of its values. -/
structure LinkReport where
  agentID : String
  links : List SBLink
deriving Repr, DecidableEq

/-- The parts of a topo.Object device entity used by the reconcilers:
its identifier and its labels. -/
structure TopoObject where
  id : String
  labels : List (String × String)
deriving Repr, DecidableEq

/-- Link aspect stored in the catalog (onos.topo.Link): status string and
last-change timestamp (pkg/controller/links_reconciler.go). -/
structure LinkAspect where
  status : String
  lastChange : Nat
deriving Repr, DecidableEq

/-- Mutable state of the link reconciler (pkg/controller/links_reconciler.go,
struct LinkReconciler): agentDevices maps an agent ID to the owning device
object; pendingLinks maps an unresolved egress agent ID to the links waiting
for it.  Both Go maps are modelled as functions into Option. -/
structure LinkRecState where
  agentDevices : String → Option TopoObject
  pendingLinks : String → Option (List SBLink)

/-- Embedding of addToPendingLinks (links_reconciler.go lines 157-165):
appends the link to the pending list of its egress device, creating the
list when the key is absent. -/
def addToPendingLinks (s : LinkRecState) (link : SBLink) : LinkRecState :=
  let pending : List SBLink :=
    match s.pendingLinks link.egressDevice with
    | none => [link]
    | some p => p ++ [link]
  { s with pendingLinks :=
      fun k => if k = link.egressDevice then some pending else s.pendingLinks k }

/-- Loop body of the partitioning loop of registerReport (links_reconciler.go
lines 137-143): a link whose egress agent is registered joins the to-process
list, any other link goes to the pending map. -/
def registerFoldStep (acc : List SBLink × LinkRecState) (link : SBLink) :
    List SBLink × LinkRecState :=
  match acc.2.agentDevices link.egressDevice with
  | some _ => (acc.1 ++ [link], acc.2)
  | none => (acc.1, addToPendingLinks acc.2 link)

/-- Embedding of registerReport (links_reconciler.go lines 127-154): records
the reporting agent's device binding, partitions the report links into the
to-process list (egress agent already registered) and the pending map, then
drains the pending bucket of the reporting agent onto the to-process list. -/
def registerReport (s : LinkRecState) (object : TopoObject) (report : LinkReport) :
    List SBLink × LinkRecState :=
  let s1 : LinkRecState :=
    { s with agentDevices :=
        fun k => if k = report.agentID then some object else s.agentDevices k }
  let folded : List SBLink × LinkRecState :=
    report.links.foldl registerFoldStep ([], s1)
  match folded.2.pendingLinks report.agentID with
  | some pending =>
      (folded.1 ++ pending,
       { folded.2 with pendingLinks :=
           fun k => if k = report.agentID then none else folded.2.pendingLinks k })
  | none => folded

/-- Embedding of resolveDevices (links_reconciler.go lines 168-172): looks up
the ingress and egress agent IDs in agentDevices. -/
def resolveDevices (s : LinkRecState) (link : SBLink) :
    Option TopoObject × Option TopoObject :=
  (s.agentDevices link.ingressDevice, s.agentDevices link.egressDevice)

/-- Embedding of updateLinkIfNeeded (links_reconciler.go lines 204-221) at the
level of one stored aspect.  The stored argument is the link aspect read from
the catalog object; none models a GetAspect failure.  The result is some a
when an Update carrying aspect a is issued, and none when the stored aspect
is left unchanged. -/
def updateLinkIfNeeded (stored : Option LinkAspect) (link : SBLink) (status : String) :
    Option LinkAspect :=
  match stored with
  | none => some { status := status, lastChange := link.createTime }
  | some a =>
      if a.lastChange < link.createTime then
        some { status := status, lastChange := link.createTime }
      else
        none

/-- Catalog object as seen by the link reconciler: a link entity carrying an
optional onos.topo.Link aspect and labels, or a relation. -/
inductive TObj where
  | entity (linkAspect : Option LinkAspect) (labels : List (String × String))
  | relation (src : String) (tgt : String) (kind : String)
deriving Repr, DecidableEq

/-- Catalog contents: identifier to object. -/
def Catalog : Type := String → Option TObj

/-- Error class of a catalog create against a held identifier. -/
inductive CreateErr where
  | alreadyExists
deriving Repr, DecidableEq

/-- Create-if-absent contract of the catalog: creating an object under a held
identifier fails with the already-exists error class. -/
def catalogCreate (cat : Catalog) (id : String) (obj : TObj) : Except CreateErr Catalog :=
  match cat id with
  | some _ => Except.error CreateErr.alreadyExists
  | none => Except.ok (fun k => if k = id then some obj else cat k)

/-- Identifier that topo.NewRelation derives for a relation object; the exact
shape lives in the external onos-api library, the embedding only needs it to
be injective in its arguments. -/
def relationID (src : String) (kind : String) (tgt : String) : String :=
  src ++ "|" ++ kind ++ "|" ++ tgt

/-- Port entity identifier: device-id/port-number
(links_reconciler.go lines 107-108, ports_reconciler.go line 48). -/
def portEntityID (deviceID : String) (port : Nat) : String :=
  deviceID ++ "/" ++ toString port

/-- Link entity identifier: egressPortID-ingressPortID
(links_reconciler.go line 109). -/
def linkEntityID (egressPortID : String) (ingressPortID : String) : String :=
  egressPortID ++ "-" ++ ingressPortID

/-- Embedding of createLink (links_reconciler.go lines 175-201): creates the
link entity with a hard-coded status "UP" aspect stamped with the link's
create-time and the egress device labels, then the originates and terminates
relations.  Any create error - the already-exists class included - aborts
with an early return, leaving the remaining creates unissued. -/
def createLink (cat : Catalog) (linkID : String) (egressPortID : String)
    (ingressPortID : String) (link : SBLink) (labels : List (String × String)) : Catalog :=
  match catalogCreate cat linkID
      (TObj.entity (some { status := "UP", lastChange := link.createTime }) labels) with
  | Except.error _ => cat
  | Except.ok cat1 =>
    match catalogCreate cat1 (relationID egressPortID "originates" linkID)
        (TObj.relation egressPortID linkID "originates") with
    | Except.error _ => cat1
    | Except.ok cat2 =>
      match catalogCreate cat2 (relationID ingressPortID "terminates" linkID)
          (TObj.relation ingressPortID linkID "terminates") with
      | Except.error _ => cat2
      | Except.ok cat3 => cat3

/-- Link aspect read out of a catalog object; reading it off a relation
object fails (GetAspect error). -/
def tobjLinkAspect : TObj → Option LinkAspect
  | TObj.entity a _ => a
  | TObj.relation _ _ _ => none

/-- Labels of a catalog object (relations carry none here). -/
def tobjLabels : TObj → List (String × String)
  | TObj.entity _ ls => ls
  | TObj.relation _ _ _ => []

/-- Embedding of reconcileLink (links_reconciler.go lines 92-124): resolve
both endpoint devices; drop when ingress is unresolved; park in pendingLinks
when egress is unresolved; otherwise create the link when the identifier is
absent from the catalog, else run the gated update. -/
def reconcileLink (s : LinkRecState) (cat : Catalog) (link : SBLink) (status : String) :
    LinkRecState × Catalog :=
  match resolveDevices s link with
  | (none, _) => (s, cat)
  | (some _, none) => (addToPendingLinks s link, cat)
  | (some ingressDevice, some egressDevice) =>
    let egressPortID := portEntityID egressDevice.id link.egressPort
    let ingressPortID := portEntityID ingressDevice.id link.ingressPort
    let linkID := linkEntityID egressPortID ingressPortID
    match cat linkID with
    | none => (s, createLink cat linkID egressPortID ingressPortID link egressDevice.labels)
    | some obj =>
      match updateLinkIfNeeded (tobjLinkAspect obj) link status with
      | none => (s, cat)
      | some a2 =>
          (s, fun k => if k = linkID then some (TObj.entity (some a2) (tobjLabels obj)) else cat k)

/-- Embedding of LinkDeleted (links_reconciler.go lines 86-89): stamps the
link's create-time with the current wall clock, then reconciles with status
DOWN. -/
def linkDeletedEvent (s : LinkRecState) (cat : Catalog) (link : SBLink) (now : Nat) :
    LinkRecState × Catalog :=
  reconcileLink s cat { link with createTime := now } "DOWN"

/-- Embedding of the write step of updateDownedIngressLink
(links_reconciler.go lines 279-298) on the stored aspect of the link that
terminates at a pruned port: when the stored aspect is readable and its
status is not already DOWN, it is replaced by status DOWN stamped with the
current wall clock; otherwise it is left alone. -/
def updateDownedIngressLink (stored : Option LinkAspect) (now : Nat) : Option LinkAspect :=
  match stored with
  | none => none
  | some a =>
      if a.status ≠ "DOWN" then some { status := "DOWN", lastChange := now }
      else some a

/-- One write operation of the link reconciler against a single catalog link
entity, for tracking the stored aspect over the entity's lifetime.  The state
is the stored aspect, with none for an absent entity (the unreadable-aspect
corner carries no stored last-change, so it is out of scope here).
reportUpdate is the reconcileLink path driven by a sweep report or a
subscription add event; deleteEvent is LinkDeleted (lines 86-89); prune is
the updateDownedIngressLink write (lines 263-299). -/
inductive LinkOp where
  | reportUpdate (link : SBLink) (status : String)
  | deleteEvent (link : SBLink) (now : Nat)
  | prune (now : Nat)
deriving Repr, DecidableEq

/-- Effect of one LinkOp on the stored aspect of one link entity, following
reconcileLink: an absent entity is created by createLink with status "UP" and
last-change equal to the (possibly wall-clock-stamped) create-time; a present
entity goes through the updateLinkIfNeeded gate; the prune path follows
updateDownedIngressLink. -/
def applyLinkOp (stored : Option LinkAspect) (op : LinkOp) : Option LinkAspect :=
  match op with
  | LinkOp.reportUpdate link status =>
      match stored with
      | none => some { status := "UP", lastChange := link.createTime }
      | some a =>
          match updateLinkIfNeeded (some a) link status with
          | some a2 => some a2
          | none => some a
  | LinkOp.deleteEvent link now =>
      match stored with
      | none => some { status := "UP", lastChange := now }
      | some a =>
          match updateLinkIfNeeded (some a) { link with createTime := now } "DOWN" with
          | some a2 => some a2
          | none => some a
  | LinkOp.prune now => updateDownedIngressLink stored now

/-- Port aspect (onos.topo.Port) as populated by pkg/southbound/ports.go:
display name, ifindex, port id, oper-status, last-change, port-speed,
enabled. -/
structure PortAspect where
  displayName : String
  index : Nat
  number : Nat
  status : String
  lastChange : Nat
  speed : String
  enabled : Bool
deriving Repr, DecidableEq

/-- Embedding of portStateChanged (ports_reconciler.go lines 141-143). -/
def portStateChanged (a : PortAspect) (b : PortAspect) : Bool :=
  a.lastChange != b.lastChange || a.enabled != b.enabled || a.status != b.status

/-- Catalog calls that one port-reconciliation pass issues. -/
inductive PortAction where
  | createPort (id : String) (aspect : PortAspect) (labels : List (String × String))
  | createHasRelation (src : String) (tgt : String)
  | updatePort (id : String) (aspect : PortAspect)
  | deletePort (id : String)
deriving Repr, DecidableEq

/-- Embedding of createPort (ports_reconciler.go lines 94-111) as the catalog
calls it issues: the port entity with the observed aspect and the parent
device labels, then the has relation from the device. -/
def createPortActions (dev : TopoObject) (portID : String) (p : PortAspect) :
    List PortAction :=
  [PortAction.createPort portID p dev.labels, PortAction.createHasRelation dev.id portID]

/-- Embedding of updatePortIfNeeded (ports_reconciler.go lines 113-131): the
stored aspect is rewritten to the observed one exactly when portStateChanged
holds. -/
def updatePortIfNeeded (topoPortID : String) (stored : PortAspect) (p : PortAspect) :
    List PortAction :=
  if portStateChanged stored p then [PortAction.updatePort topoPortID p] else []

/-- Loop body of the observation phase of DiscoverPorts (ports_reconciler.go
lines 47-58): a reported port absent from the catalog is created with its has
relation, a present one goes through the gated update. -/
def observePort (dev : TopoObject) (topoPorts : List (String × PortAspect))
    (p : PortAspect) : List PortAction :=
  match topoPorts.lookup (portEntityID dev.id p.number) with
  | none => createPortActions dev (portEntityID dev.id p.number) p
  | some stored => updatePortIfNeeded (portEntityID dev.id p.number) stored p

/-- Embedding of DiscoverPorts (ports_reconciler.go lines 30-66) as the list
of catalog calls of one pass: the observation phase over the reported ports
followed by the deletion phase (lines 60-65), which deletes every catalog
port whose identifier was not observed.  devicePorts is the port list from
the device get (a Go map keyed by interface name, modelled as its value
list); topoPorts is the queried association of this device's catalog port
entities to their port aspects. -/
def discoverPorts (dev : TopoObject) (devicePorts : List PortAspect)
    (topoPorts : List (String × PortAspect)) : List PortAction :=
  (devicePorts.map (observePort dev topoPorts)).flatten ++
    ((topoPorts.filter (fun e =>
        decide (e.1 ∉ devicePorts.map (fun p => portEntityID dev.id p.number)))).map
      (fun e => PortAction.deletePort e.1))

/-- Southbound host observation (pkg/southbound/hosts.go, struct Host). -/
structure SBHost where
  mac : String
  ip : String
  port : Nat
  createTime : Nat
deriving Repr, DecidableEq

/-- Host entity identifier as computed by reconcileHost
(hosts_reconciler.go line 74): MAC/port. -/
def hostEntityID (host : SBHost) : String :=
  host.mac ++ "/" ++ toString host.port

/-- Host entity identifier as the specification words it:
agentID/port/MAC (spec section 4.4).  Kept for comparison against the
identifier the code computes. -/
def hostEntityIDSpec (agentID : String) (host : SBHost) : String :=
  agentID ++ "/" ++ toString host.port ++ "/" ++ host.mac

/-- Network-interface aspect (onos.topo.NetworkInterface) as built by
createHost (hosts_reconciler.go lines 137-138): the mac-device-port string
and the IP address. -/
structure NetworkInterfaceAspect where
  macDevicePort : String
  ip : String
deriving Repr, DecidableEq

/-- Catalog calls the host reconciler issues. -/
inductive HostAction where
  | createHostEntity (id : String) (aspect : NetworkInterfaceAspect)
  | createOriginatesRelation (src : String) (tgt : String)
deriving Repr, DecidableEq

/-- Embedding of createHost (hosts_reconciler.go lines 136-158): the host
entity with the network-interface aspect, then an originates relation whose
source is the bare port-number string. -/
def createHost (host : SBHost) : List HostAction :=
  [HostAction.createHostEntity (hostEntityID host)
      { macDevicePort := host.mac ++ "/" ++ toString host.port, ip := host.ip },
   HostAction.createOriginatesRelation (toString host.port) (hostEntityID host)]

/-- Embedding of reconcileHost (hosts_reconciler.go lines 72-92): when the
host identifier resolves in the catalog nothing is written (the update branch
is commented out in the source); otherwise createHost runs. -/
def reconcileHost (catalogHas : String → Bool) (host : SBHost) : List HostAction :=
  if catalogHas (hostEntityID host) then [] else createHost host

/-- Lifecycle states of the discovery controller
(linkrelation/controller.go, second document, lines 167-181). -/
inductive CState where
  | Disconnected
  | Connected
  | Initialized
  | Monitoring
  | Stopped
deriving Repr, DecidableEq

/-- Embedding of pauseIf (linkrelation/controller.go, second document, lines
266-270): sleeps for the pause when in the condition state; it never writes
the controller state, so on the state abstraction it is the identity. -/
def pauseIf (_condition : CState) (st : CState) : CState := st

/-- Embedding of runInitialDiscoverySweep (src/unnamed/part_010 lines 13-22):
loops while the state is Connected; a sweep that completes without error sets
Initialized; on a sweep error the state is not written (pauseIf only sleeps)
and the loop retries with the next sweep outcome.  Sweep outcomes arrive as
an oracle list, true meaning the sweep completed without error. -/
def runInitialDiscoverySweep (st : CState) (sweeps : List Bool) : CState :=
  match sweeps with
  | [] => st
  | ok :: rest =>
    if st = CState.Connected then
      if ok then CState.Initialized
      else runInitialDiscoverySweep (pauseIf CState.Disconnected st) rest
    else st

/-- The three reconciler invocations of the discovery worker. -/
inductive ReconcileCall where
  | ports
  | links
  | hosts
deriving Repr, DecidableEq

/-- Embedding of one iteration of the worker loop body of discover
(src/unnamed/part_011 lines 105-129): check-and-set the working-on flag under
the lock; when the object is already being worked on, drop it without
reconciling; otherwise run the port, link and host reconcilers in that order
and then remove the flag.  Returns the reconciler calls made and the final
working-on set. -/
def discoverBody (workingOn : String → Bool) (objID : String) :
    List ReconcileCall × (String → Bool) :=
  if workingOn objID then ([], workingOn)
  else
    let w1 := fun k => if k = objID then true else workingOn k
    let w2 := fun k => if k = objID then false else w1 k
    ([ReconcileCall.ports, ReconcileCall.links, ReconcileCall.hosts], w2)

/-- Shared state of the worker pool: the working-on set guarded by the
controller lock, plus for each worker the object it currently owns (none when
idle between queue items). -/
structure PoolState where
  workingOn : String → Bool
  workers : Nat → Option String

/-- Atomic steps of the worker pool, mirroring the lock-protected sections of
discover (src/unnamed/part_011 lines 105-129): a dequeue that finds the
object busy drops it; a dequeue that finds it free marks it and takes
ownership; finishing work releases ownership and unmarks the object. -/
inductive PoolStep : PoolState → PoolState → Prop where
  | dequeueBusy (s : PoolState) (w : Nat) (objID : String) :
      s.workers w = none → s.workingOn objID = true → PoolStep s s
  | dequeueAcquire (s : PoolState) (w : Nat) (objID : String) :
      s.workers w = none → s.workingOn objID = false →
      PoolStep s
        { workingOn := fun k => if k = objID then true else s.workingOn k,
          workers := fun i => if i = w then some objID else s.workers i }
  | finishWork (s : PoolState) (w : Nat) (objID : String) :
      s.workers w = some objID →
      PoolStep s
        { workingOn := fun k => if k = objID then false else s.workingOn k,
          workers := fun i => if i = w then none else s.workers i }

/-- Mutual-exclusion invariant of the worker pool: every owned object is
marked in the working-on set, and no two workers own the same object. -/
def PoolInv (s : PoolState) : Prop :=
  (∀ w objID, s.workers w = some objID → s.workingOn objID = true) ∧
  (∀ w1 w2 objID, s.workers w1 = some objID → s.workers w2 = some objID → w1 = w2)

/-- Request payloads of the northbound seeding API (pkg/controller/assets.go);
only the fields the embedding uses. -/
structure AddPodRequest where
  id : String
deriving Repr, DecidableEq

/-- AddRack request payload. -/
structure AddRackRequest where
  id : String
  podID : String
deriving Repr, DecidableEq

/-- AddSwitch request payload (management endpoints elided; the aspects they
produce are tracked by type name). -/
structure AddSwitchRequest where
  id : String
  podID : String
  rackID : String
deriving Repr, DecidableEq

/-- AddServerIPU request payload. -/
structure AddServerIPURequest where
  id : String
  podID : String
  rackID : String
deriving Repr, DecidableEq

/-- Catalog mutations the seeding API issues.  Aspects are tracked by their
type names (assets.go aspects() produces DeviceConfig, GNMIServer and
P4RuntimeServer payloads). -/
inductive AssetAction where
  | createEntity (id : String) (kind : String) (aspects : List String)
      (labels : List (String × String))
  | createRelation (src : String) (tgt : String) (kind : String)
deriving Repr, DecidableEq

/-- Unavailable error text (assets.go line 21). -/
def controllerNotReady : String := "Controller not ready yet"

/-- Labels helper (assets.go lines 104-107). -/
def assetLabels (pod : String) (rack : String) : List (String × String) :=
  [("pod", pod), ("rack", rack)]

/-- Aspect type names produced by aspects() (assets.go lines 75-89). -/
def switchAspects : List String :=
  ["DeviceConfig", "GNMIServer", "P4RuntimeServer"]

/-- Embedding of AddPod (assets.go lines 25-30): Unavailable unless
Monitoring, else create the pod entity. -/
def addPod (st : CState) (req : AddPodRequest) : Except String (List AssetAction) :=
  if st ≠ CState.Monitoring then Except.error controllerNotReady
  else Except.ok [AssetAction.createEntity req.id "pod" [] [("pod", req.id)]]

/-- Embedding of AddRack (assets.go lines 33-41): Unavailable unless
Monitoring, else create the rack entity and the contains relation from the
pod. -/
def addRack (st : CState) (req : AddRackRequest) : Except String (List AssetAction) :=
  if st ≠ CState.Monitoring then Except.error controllerNotReady
  else Except.ok
    [AssetAction.createEntity req.id "rack" [] (assetLabels req.podID req.id),
     AssetAction.createRelation req.podID req.id "contains"]

/-- Embedding of AddSwitch (assets.go lines 44-53): Unavailable unless
Monitoring, else create the switch entity with its aspects and the contains
relation from the rack. -/
def addSwitch (st : CState) (req : AddSwitchRequest) : Except String (List AssetAction) :=
  if st ≠ CState.Monitoring then Except.error controllerNotReady
  else Except.ok
    [AssetAction.createEntity req.id "switch" switchAspects (assetLabels req.podID req.rackID),
     AssetAction.createRelation req.rackID req.id "contains"]

/-- Embedding of AddServerIPU (assets.go lines 56-73): Unavailable unless
Monitoring, else create the server entity, the contains relation from the
rack, the derived id-IPU entity with its aspects, and the contains relation
from the server. -/
def addServerIPU (st : CState) (req : AddServerIPURequest) :
    Except String (List AssetAction) :=
  if st ≠ CState.Monitoring then Except.error controllerNotReady
  else Except.ok
    [AssetAction.createEntity req.id "server" [] (assetLabels req.podID req.rackID),
     AssetAction.createRelation req.rackID req.id "contains",
     AssetAction.createEntity (req.id ++ "-IPU") "ipu" switchAspects
       (assetLabels req.podID req.rackID),
     AssetAction.createRelation req.id (req.id ++ "-IPU") "contains"]

/-- Relation identifier derived by GetLinkOriginatesRelationID
(pkg/controller/utils/utils.go lines 228-232): source:link. -/
def originatesRelationID (sourceInterfaceID : String) (linkEntityIDArg : String) : String :=
  sourceInterfaceID ++ ":" ++ linkEntityIDArg

/-- Embedding of createLinkOriginatesRelation
(pkg/controller/linkrelation/controller.go lines 79-112).  The store may be
written concurrently between the Get and the Create, so the two calls run
against separate snapshots catAtGet and catAtCreate.  A create failing with
the already-exists class is swallowed: the function returns ok (false, cat)
rather than an error. -/
def createLinkOriginatesRelation (catAtGet : Catalog) (catAtCreate : Catalog)
    (sourceInterfaceID : String) (linkID : String) :
    Except CreateErr (Bool × Catalog) :=
  let relID := originatesRelationID sourceInterfaceID linkID
  match catAtGet relID with
  | some _ => Except.ok (false, catAtCreate)
  | none =>
    match catalogCreate catAtCreate relID
        (TObj.relation sourceInterfaceID linkID "originates") with
    | Except.error CreateErr.alreadyExists => Except.ok (false, catAtCreate)
    | Except.ok cat2 => Except.ok (true, cat2)

/-! Theorems settling the specification claims. -/

/-- C2: for a link already present in the catalog, updateLinkIfNeeded rewrites
the stored aspect - to the given status and the observed create-time - if and
only if the stored last-change is strictly smaller than the observed
create-time or the stored aspect cannot be read; otherwise the stored aspect
is left unchanged (no update is issued). -/
theorem updateLinkIfNeeded_gate (stored : Option LinkAspect) (link : SBLink)
    (status : String) :
    (updateLinkIfNeeded stored link status = none ∨
      updateLinkIfNeeded stored link status =
        some { status := status, lastChange := link.createTime }) ∧
    (updateLinkIfNeeded stored link status ≠ none ↔
      stored = none ∨ ∃ a, stored = some a ∧ a.lastChange < link.createTime) := by
  cases stored with
  | none => simp [updateLinkIfNeeded]
  | some a =>
    by_cases h : a.lastChange < link.createTime <;>
      simp [updateLinkIfNeeded, h]

/-- C5 counterexample: in the Connected state, a discovery sweep that returns
an error leaves the controller in Connected - it does not return to
Disconnected (pauseIf only sleeps, it never writes the state). -/
theorem sweepError_keepsConnected :
    runInitialDiscoverySweep CState.Connected [false] = CState.Connected ∧
    CState.Connected ≠ CState.Disconnected := by
  exact ⟨rfl, by decide⟩

/-- C5 amended: in Connected, a sweep that completes without error moves the
controller to Initialized; a sweep error leaves it in Connected and the sweep
is retried with the next outcome; the initial-sweep loop never produces the
Disconnected state. -/
theorem runInitialDiscoverySweep_spec :
    (∀ rest, runInitialDiscoverySweep CState.Connected (true :: rest) =
      CState.Initialized) ∧
    (∀ rest, runInitialDiscoverySweep CState.Connected (false :: rest) =
      runInitialDiscoverySweep CState.Connected rest) ∧
    (∀ sweeps, runInitialDiscoverySweep CState.Connected sweeps ≠
      CState.Disconnected) := by
  refine ⟨fun rest => rfl, fun rest => rfl, fun sweeps => ?_⟩
  induction sweeps with
  | nil => decide
  | cons ok rest ih =>
    cases ok with
    | true => simp [runInitialDiscoverySweep]
    | false => simpa [runInitialDiscoverySweep, pauseIf] using ih

/-- C3 counterexample: the downed-link prune stamps the current wall clock
without any gate against the stored last-change, so with a stored value ahead
of the clock the stored last-change decreases (from 100 to 50 here). -/
theorem pruneClockSkew_decreases :
    applyLinkOp (some { status := "UP", lastChange := 100 }) (LinkOp.prune 50) =
      some { status := "DOWN", lastChange := 50 } ∧ (50 : Nat) < 100 := by
  exact ⟨by decide, by decide⟩

/-- C3 amended: a step of the link reconciler against a stored link aspect
never decreases the stored last-change, provided every prune step that fires
(stored status not DOWN) carries a wall clock at least the stored
last-change; the report/add update path and the delete-event path need no
such proviso since they are gated on strict create-time newness. -/
theorem linkLastChange_monotone (stored : Option LinkAspect) (op : LinkOp)
    (a a2 : LinkAspect) (hs : stored = some a)
    (hres : applyLinkOp stored op = some a2)
    (hclock : ∀ n, op = LinkOp.prune n → a.status ≠ "DOWN" → a.lastChange ≤ n) :
    a.lastChange ≤ a2.lastChange := by
  subst hs
  cases op with
  | reportUpdate link status =>
    by_cases h : a.lastChange < link.createTime
    · simp only [applyLinkOp, updateLinkIfNeeded, if_pos h] at hres
      cases hres
      exact Nat.le_of_lt h
    · simp only [applyLinkOp, updateLinkIfNeeded, if_neg h] at hres
      cases hres
      exact Nat.le_refl _
  | deleteEvent link now =>
    by_cases h : a.lastChange < now
    · simp only [applyLinkOp, updateLinkIfNeeded, if_pos h] at hres
      cases hres
      exact Nat.le_of_lt h
    · simp only [applyLinkOp, updateLinkIfNeeded, if_neg h] at hres
      cases hres
      exact Nat.le_refl _
  | prune now =>
    by_cases h : a.status ≠ "DOWN"
    · simp only [applyLinkOp, updateDownedIngressLink, if_pos h] at hres
      cases hres
      exact hclock now rfl h
    · simp only [applyLinkOp, updateDownedIngressLink, if_neg h] at hres
      cases hres
      exact Nat.le_refl _

/-- C3 amended, witness: a prune at clock 20 against a stored aspect
(UP, 10) yields (DOWN, 20), and the theorem gives 10 <= 20. -/
theorem linkLastChange_monotone_witness :
    applyLinkOp (some { status := "UP", lastChange := 10 }) (LinkOp.prune 20) =
      some { status := "DOWN", lastChange := 20 } ∧ (10 : Nat) ≤ 20 := by
  refine ⟨by decide, ?_⟩
  exact linkLastChange_monotone (some { status := "UP", lastChange := 10 })
    (LinkOp.prune 20) { status := "UP", lastChange := 10 }
    { status := "DOWN", lastChange := 20 } rfl (by decide)
    (fun n hn hd => by cases hn; decide)

/-- C6 counterexample: for a host with MAC aa:bb:cc:dd:ee:ff on port 1 of the
agent with ID agent-1, the code derives the host identifier
aa:bb:cc:dd:ee:ff/1, not the agent-1/1/aa:bb:cc:dd:ee:ff of the claim, and
the originates relation it creates has the bare port-number string 1 as its
source, not a port entity of the device. -/
theorem hostIdentifier_mismatch :
    hostEntityID { mac := "aa:bb:cc:dd:ee:ff", ip := "10.0.0.1", port := 1, createTime := 0 } =
      "aa:bb:cc:dd:ee:ff/1" ∧
    hostEntityIDSpec "agent-1"
      { mac := "aa:bb:cc:dd:ee:ff", ip := "10.0.0.1", port := 1, createTime := 0 } =
      "agent-1/1/aa:bb:cc:dd:ee:ff" ∧
    "aa:bb:cc:dd:ee:ff/1" ≠ "agent-1/1/aa:bb:cc:dd:ee:ff" ∧
    reconcileHost (fun _ => false)
      { mac := "aa:bb:cc:dd:ee:ff", ip := "10.0.0.1", port := 1, createTime := 0 } =
      [HostAction.createHostEntity "aa:bb:cc:dd:ee:ff/1"
          { macDevicePort := "aa:bb:cc:dd:ee:ff/1", ip := "10.0.0.1" },
       HostAction.createOriginatesRelation "1" "aa:bb:cc:dd:ee:ff/1"] := by
  exact ⟨rfl, rfl, by decide, by decide⟩

/-- C6 amended: for every host of a processed report the reconciler derives
the identifier MAC/port; when the catalog has no object under it, it creates
the host entity with a network-interface aspect carrying the MAC/port string
and the host IP, and an originates relation whose source is the bare
port-number string and whose target is the host entity; when the catalog
already has the identifier nothing is written. -/
theorem reconcileHost_behavior (catalogHas : String → Bool) (host : SBHost) :
    hostEntityID host = host.mac ++ "/" ++ toString host.port ∧
    (catalogHas (hostEntityID host) = false →
      reconcileHost catalogHas host =
        [HostAction.createHostEntity (hostEntityID host)
            { macDevicePort := host.mac ++ "/" ++ toString host.port, ip := host.ip },
         HostAction.createOriginatesRelation (toString host.port) (hostEntityID host)]) ∧
    (catalogHas (hostEntityID host) = true → reconcileHost catalogHas host = []) := by
  refine ⟨rfl, fun habs => ?_, fun hpres => ?_⟩
  · simp [reconcileHost, habs, createHost]
  · simp [reconcileHost, hpres]

/-- C6 amended, witness: evaluation at a concrete host against an empty and
against a full catalog. -/
theorem reconcileHost_behavior_witness :
    reconcileHost (fun _ => false)
      { mac := "02:42:ac:11:00:02", ip := "172.17.0.2", port := 3, createTime := 7 } =
      [HostAction.createHostEntity "02:42:ac:11:00:02/3"
          { macDevicePort := "02:42:ac:11:00:02/3", ip := "172.17.0.2" },
       HostAction.createOriginatesRelation "3" "02:42:ac:11:00:02/3"] ∧
    reconcileHost (fun _ => true)
      { mac := "02:42:ac:11:00:02", ip := "172.17.0.2", port := 3, createTime := 7 } = [] := by
  constructor
  · have h := (reconcileHost_behavior (fun _ => false)
      { mac := "02:42:ac:11:00:02", ip := "172.17.0.2", port := 3, createTime := 7 }).2.1 rfl
    simpa using h
  · have h := (reconcileHost_behavior (fun _ => true)
      { mac := "02:42:ac:11:00:02", ip := "172.17.0.2", port := 3, createTime := 7 }).2.2 rfl
    simpa using h

/-- C8: each of the four seeding calls returns the Unavailable error and
issues no catalog mutation whenever the controller state is not Monitoring;
in Monitoring each proceeds to create the requested entities and the contains
relations. -/
theorem seedingAPI_gating (st : CState) (p : AddPodRequest) (r : AddRackRequest)
    (sw : AddSwitchRequest) (srv : AddServerIPURequest) :
    (st ≠ CState.Monitoring →
      addPod st p = Except.error controllerNotReady ∧
      addRack st r = Except.error controllerNotReady ∧
      addSwitch st sw = Except.error controllerNotReady ∧
      addServerIPU st srv = Except.error controllerNotReady) ∧
    (st = CState.Monitoring →
      (∃ acts, addPod st p = Except.ok acts ∧
        AssetAction.createEntity p.id "pod" [] [("pod", p.id)] ∈ acts) ∧
      (∃ acts, addRack st r = Except.ok acts ∧
        AssetAction.createEntity r.id "rack" [] (assetLabels r.podID r.id) ∈ acts ∧
        AssetAction.createRelation r.podID r.id "contains" ∈ acts) ∧
      (∃ acts, addSwitch st sw = Except.ok acts ∧
        AssetAction.createEntity sw.id "switch" switchAspects
          (assetLabels sw.podID sw.rackID) ∈ acts ∧
        AssetAction.createRelation sw.rackID sw.id "contains" ∈ acts) ∧
      (∃ acts, addServerIPU st srv = Except.ok acts ∧
        AssetAction.createEntity srv.id "server" [] (assetLabels srv.podID srv.rackID) ∈ acts ∧
        AssetAction.createRelation srv.rackID srv.id "contains" ∈ acts ∧
        AssetAction.createEntity (srv.id ++ "-IPU") "ipu" switchAspects
          (assetLabels srv.podID srv.rackID) ∈ acts ∧
        AssetAction.createRelation srv.id (srv.id ++ "-IPU") "contains" ∈ acts)) := by
  constructor
  · intro hne
    refine ⟨?_, ?_, ?_, ?_⟩ <;> simp [addPod, addRack, addSwitch, addServerIPU, hne]
  · intro heq
    subst heq
    refine ⟨⟨_, rfl, ?_⟩, ⟨_, rfl, ?_, ?_⟩, ⟨_, rfl, ?_, ?_⟩, ⟨_, rfl, ?_, ?_, ?_, ?_⟩⟩ <;>
      simp

/-- C8 witness: the gate evaluated at the Initialized state and the creates
evaluated at Monitoring, for concrete requests. -/
theorem seedingAPI_gating_witness :
    addPod CState.Initialized { id := "p1" } = Except.error controllerNotReady ∧
    (∃ acts, addRack CState.Monitoring { id := "r1", podID := "p1" } = Except.ok acts ∧
      AssetAction.createEntity "r1" "rack" [] (assetLabels "p1" "r1") ∈ acts ∧
      AssetAction.createRelation "p1" "r1" "contains" ∈ acts) := by
  constructor
  · exact ((seedingAPI_gating CState.Initialized { id := "p1" } { id := "r1", podID := "p1" }
      { id := "s1", podID := "p1", rackID := "r1" }
      { id := "v1", podID := "p1", rackID := "r1" }).1 (by decide)).1
  · exact ((seedingAPI_gating CState.Monitoring { id := "p1" } { id := "r1", podID := "p1" }
      { id := "s1", podID := "p1", rackID := "r1" }
      { id := "v1", podID := "p1", rackID := "r1" }).2 rfl).2.1

/-- Catalog used by the C9 counterexample: it already holds the link entity
B/7-A/3 and nothing else. -/
def c9Catalog : Catalog := fun k =>
  if k = "B/7-A/3" then some (TObj.entity (some { status := "UP", lastChange := 5 }) [])
  else none

/-- Link observation used by the C9 counterexample. -/
def c9Link : SBLink :=
  { ingressDevice := "a", ingressPort := 3, egressDevice := "b",
    egressPort := 7, createTime := 9 }

/-- C9 counterexample: when the link entity B/7-A/3 is already held by the
catalog, the create inside createLink fails with the already-exists class and
createLink aborts: the catalog is returned unchanged and neither the
originates nor the terminates relation is ensured. -/
theorem createLinkAlreadyExists_aborts :
    catalogCreate c9Catalog "B/7-A/3"
        (TObj.entity (some { status := "UP", lastChange := 9 }) []) =
      Except.error CreateErr.alreadyExists ∧
    createLink c9Catalog "B/7-A/3" "B/7" "A/3" c9Link [] = c9Catalog ∧
    createLink c9Catalog "B/7-A/3" "B/7" "A/3" c9Link []
        (relationID "B/7" "originates" "B/7-A/3") = none ∧
    createLink c9Catalog "B/7-A/3" "B/7" "A/3" c9Link []
        (relationID "A/3" "terminates" "B/7-A/3") = none := by
  refine ⟨rfl, rfl, ?_, ?_⟩ <;> decide

/-- C9 amended: the two create paths classify the already-exists error
differently.  In the link-relation reconciler a relation create that fails
with already-exists is swallowed and the call returns ok, as the claim says;
but in the link reconciler's createLink any create failure on the link
entity - the already-exists class included - aborts that link's creation,
leaving the catalog unchanged and the originates/terminates relations
unissued (the loop over the remaining links of the pass still continues). -/
theorem alreadyExists_handling
    (catAtGet catAtCreate : Catalog) (src linkID : String)
    (cat : Catalog) (linkID2 egressPortID ingressPortID : String) (link : SBLink)
    (labels : List (String × String))
    (hget : catAtGet (originatesRelationID src linkID) = none)
    (hconc : catAtCreate (originatesRelationID src linkID) ≠ none)
    (hheld : cat linkID2 ≠ none) :
    createLinkOriginatesRelation catAtGet catAtCreate src linkID =
      Except.ok (false, catAtCreate) ∧
    createLink cat linkID2 egressPortID ingressPortID link labels = cat := by
  constructor
  · rcases hc : catAtCreate (originatesRelationID src linkID) with _ | v
    · exact absurd hc hconc
    · simp [createLinkOriginatesRelation, catalogCreate, hget, hc]
  · rcases hc2 : cat linkID2 with _ | v
    · exact absurd hc2 hheld
    · simp [createLink, catalogCreate, hc2]

/-- C9 amended, witness: both parts evaluated at the concrete catalog holding
only the link entity B/7-A/3. -/
theorem alreadyExists_handling_witness :
    createLinkOriginatesRelation (fun _ => none)
        (fun k => if k = originatesRelationID "B/7" "B/7-A/3" then
            some (TObj.relation "B/7" "B/7-A/3" "originates") else none)
        "B/7" "B/7-A/3" =
      Except.ok (false,
        fun k => if k = originatesRelationID "B/7" "B/7-A/3" then
            some (TObj.relation "B/7" "B/7-A/3" "originates") else none) ∧
    createLink c9Catalog "B/7-A/3" "B/7" "A/3" c9Link [] = c9Catalog := by
  exact alreadyExists_handling (fun _ => none)
    (fun k => if k = originatesRelationID "B/7" "B/7-A/3" then
        some (TObj.relation "B/7" "B/7-A/3" "originates") else none)
    "B/7" "B/7-A/3" c9Catalog "B/7-A/3" "B/7" "A/3" c9Link []
    rfl (by decide) (by decide)

/-- Relation identifiers are strictly longer than their target component, so
they never collide with the link entity identifier they point at. -/
lemma relationID_ne_target (src kind tgt : String) : relationID src kind tgt ≠ tgt := by
  intro h
  have hlen := congrArg String.length h
  have hone : ("|" : String).length = 1 := rfl
  simp only [relationID, String.length_append, hone] at hlen
  omega

/-- Helper for C10: when the link identifier is absent from the catalog,
createLink stores under it the entity with the hard-coded status UP and the
link's create-time, whatever happens to the relation creates. -/
lemma createLink_stores (cat : Catalog) (linkID egressPortID ingressPortID : String)
    (link : SBLink) (labels : List (String × String)) (habs : cat linkID = none) :
    createLink cat linkID egressPortID ingressPortID link labels linkID =
      some (TObj.entity (some { status := "UP", lastChange := link.createTime }) labels) := by
  have h1 : relationID egressPortID "originates" linkID ≠ linkID :=
    relationID_ne_target _ _ _
  have h2 : relationID ingressPortID "terminates" linkID ≠ linkID :=
    relationID_ne_target _ _ _
  have h1s : ¬ (linkID = relationID egressPortID "originates" linkID) :=
    fun h => h1 h.symm
  have h2s : ¬ (linkID = relationID ingressPortID "terminates" linkID) :=
    fun h => h2 h.symm
  simp only [createLink, catalogCreate, habs, if_neg h1]
  rcases hc1 : cat (relationID egressPortID "originates" linkID) with _ | v1
  · by_cases hee : relationID ingressPortID "terminates" linkID =
        relationID egressPortID "originates" linkID
    · simp [if_pos hee, h1s]
    · simp only [if_neg hee, if_neg h2]
      rcases hc2 : cat (relationID ingressPortID "terminates" linkID) with _ | v2 <;>
        simp [h1s, h2s]
  · simp [h1s]

/-- Helper for C10: reconcileLink with both endpoint devices resolved and the
link identifier absent from the catalog creates the entity with status UP and
last-change equal to the link's create-time, for any status argument. -/
lemma reconcileLink_absent (s : LinkRecState) (cat : Catalog) (link : SBLink)
    (status : String) (ingressDev egressDev : TopoObject)
    (hing : s.agentDevices link.ingressDevice = some ingressDev)
    (heg : s.agentDevices link.egressDevice = some egressDev)
    (habs : cat (linkEntityID (portEntityID egressDev.id link.egressPort)
      (portEntityID ingressDev.id link.ingressPort)) = none) :
    (reconcileLink s cat link status).2
        (linkEntityID (portEntityID egressDev.id link.egressPort)
          (portEntityID ingressDev.id link.ingressPort)) =
      some (TObj.entity (some { status := "UP", lastChange := link.createTime })
        egressDev.labels) := by
  simp only [reconcileLink, resolveDevices, hing, heg, habs]
  exact createLink_stores _ _ _ _ _ _ habs

/-- C10: when both endpoint devices resolve and the catalog holds nothing
under the computed link identifier, reconcileLink creates the link entity
with status UP and last-change equal to the link's create-time, regardless of
the status argument; hence the delete-event path (create-time restamped with
the wall clock, status DOWN) creates an absent link with status UP and
last-change equal to the wall clock. -/
theorem reconcileLink_absentCreatesUp (s : LinkRecState) (cat : Catalog)
    (link : SBLink) (status : String) (now : Nat) (ingressDev egressDev : TopoObject)
    (hing : s.agentDevices link.ingressDevice = some ingressDev)
    (heg : s.agentDevices link.egressDevice = some egressDev)
    (habs : cat (linkEntityID (portEntityID egressDev.id link.egressPort)
      (portEntityID ingressDev.id link.ingressPort)) = none) :
    (reconcileLink s cat link status).2
        (linkEntityID (portEntityID egressDev.id link.egressPort)
          (portEntityID ingressDev.id link.ingressPort)) =
      some (TObj.entity (some { status := "UP", lastChange := link.createTime })
        egressDev.labels) ∧
    (linkDeletedEvent s cat link now).2
        (linkEntityID (portEntityID egressDev.id link.egressPort)
          (portEntityID ingressDev.id link.ingressPort)) =
      some (TObj.entity (some { status := "UP", lastChange := now })
        egressDev.labels) := by
  constructor
  · exact reconcileLink_absent s cat link status ingressDev egressDev hing heg habs
  · exact reconcileLink_absent s cat { link with createTime := now } "DOWN"
      ingressDev egressDev hing heg habs

/-- C10 witness: concrete two-device state with an empty catalog; a delete
event at wall clock 42 for the unknown link creates it with status UP and
last-change 42. -/
theorem reconcileLink_absentCreatesUp_witness :
    (linkDeletedEvent
        { agentDevices := fun k =>
            if k = "a" then some { id := "A", labels := [] }
            else if k = "b" then some { id := "B", labels := [("realm", "r")] }
            else none,
          pendingLinks := fun _ => none }
        (fun _ => none)
        { ingressDevice := "a", ingressPort := 3, egressDevice := "b",
          egressPort := 7, createTime := 9 }
        42).2 (linkEntityID (portEntityID "B" 7) (portEntityID "A" 3)) =
      some (TObj.entity (some { status := "UP", lastChange := 42 })
        [("realm", "r")]) := by
  exact (reconcileLink_absentCreatesUp
    { agentDevices := fun k =>
        if k = "a" then some { id := "A", labels := [] }
        else if k = "b" then some { id := "B", labels := [("realm", "r")] }
        else none,
      pendingLinks := fun _ => none }
    (fun _ => none)
    { ingressDevice := "a", ingressPort := 3, egressDevice := "b",
      egressPort := 7, createTime := 9 }
    "UP" 42 { id := "A", labels := [] } { id := "B", labels := [("realm", "r")] }
    (by decide) (by decide) rfl).2

/-- C4: a worker dequeuing a device that is already in the working-on set
performs no reconciliation and leaves the set unchanged; otherwise it runs
the port, link and host reconcilers in that fixed order and ends with the
identifier removed; and the pool step relation preserves the
mutual-exclusion invariant, so at most one worker owns a given device at any
time and a double-enqueue while one worker is mid-reconcile runs exactly one
reconciliation. -/
theorem discoverWorker_exclusive :
    (∀ (workingOn : String → Bool) (objID : String),
      workingOn objID = true → discoverBody workingOn objID = ([], workingOn)) ∧
    (∀ (workingOn : String → Bool) (objID : String),
      workingOn objID = false →
        (discoverBody workingOn objID).1 =
          [ReconcileCall.ports, ReconcileCall.links, ReconcileCall.hosts] ∧
        (discoverBody workingOn objID).2 =
          fun k => if k = objID then false else workingOn k) ∧
    (∀ s s2, PoolInv s → PoolStep s s2 → PoolInv s2) := by
  refine ⟨?_, ?_, ?_⟩
  · intro workingOn objID hbusy
    simp [discoverBody, hbusy]
  · intro workingOn objID hfree
    constructor
    · simp [discoverBody, hfree]
    · simp only [discoverBody, hfree, Bool.false_eq_true, if_false]
      funext k
      by_cases hk : k = objID <;> simp [hk]
  · rintro s s2 ⟨h1, h2⟩ hstep
    cases hstep with
    | dequeueBusy w objID hw hb => exact ⟨h1, h2⟩
    | dequeueAcquire w objID hw hfree =>
      constructor
      · intro w2 o ho
        simp only at ho ⊢
        by_cases hww : w2 = w
        · rw [if_pos hww] at ho
          obtain rfl : objID = o := Option.some.inj ho
          simp
        · rw [if_neg hww] at ho
          have hmark := h1 w2 o ho
          by_cases ho2 : o = objID
          · simp [ho2]
          · simpa [if_neg ho2] using hmark
      · intro w1 w2 o e1 e2
        simp only at e1 e2
        by_cases ha : w1 = w
        · by_cases hb2 : w2 = w
          · rw [ha, hb2]
          · rw [if_pos ha] at e1
            rw [if_neg hb2] at e2
            obtain rfl : objID = o := Option.some.inj e1
            exact absurd (h1 w2 objID e2) (by simp [hfree])
        · by_cases hb2 : w2 = w
          · rw [if_pos hb2] at e2
            rw [if_neg ha] at e1
            obtain rfl : objID = o := Option.some.inj e2
            exact absurd (h1 w1 objID e1) (by simp [hfree])
          · rw [if_neg ha] at e1
            rw [if_neg hb2] at e2
            exact h2 w1 w2 o e1 e2
    | finishWork w objID hw =>
      constructor
      · intro w2 o ho
        simp only at ho ⊢
        by_cases hww : w2 = w
        · rw [if_pos hww] at ho
          exact absurd ho (by simp)
        · rw [if_neg hww] at ho
          have hmark := h1 w2 o ho
          by_cases ho2 : o = objID
          · exact absurd (h2 w2 w o ho (ho2 ▸ hw)) hww
          · simpa [if_neg ho2] using hmark
      · intro w1 w2 o e1 e2
        simp only at e1 e2
        by_cases ha : w1 = w
        · rw [if_pos ha] at e1
          exact absurd e1 (by simp)
        · by_cases hb2 : w2 = w
          · rw [if_pos hb2] at e2
            exact absurd e2 (by simp)
          · rw [if_neg ha] at e1
            rw [if_neg hb2] at e2
            exact h2 w1 w2 o e1 e2

/-- C4 witness: a busy dequeue of d1 drops without reconciling, a free
dequeue yields the three reconciler calls in order, and the invariant holds
after worker 0 acquires d1 from the empty pool state. -/
theorem discoverWorker_exclusive_witness :
    discoverBody (fun k => decide (k = "d1")) "d1" = ([], fun k => decide (k = "d1")) ∧
    (discoverBody (fun _ => false) "d1").1 =
      [ReconcileCall.ports, ReconcileCall.links, ReconcileCall.hosts] ∧
    PoolInv
      { workingOn := fun k => if k = "d1" then true else (fun _ => false) k,
        workers := fun i => if i = 0 then some "d1" else (fun _ => none) i } := by
  refine ⟨?_, ?_, ?_⟩
  · exact discoverWorker_exclusive.1 (fun k => decide (k = "d1")) "d1" (by decide)
  · exact (discoverWorker_exclusive.2.1 (fun _ => false) "d1" rfl).1
  · exact discoverWorker_exclusive.2.2
      { workingOn := fun _ => false, workers := fun _ => none }
      { workingOn := fun k => if k = "d1" then true else (fun _ => false) k,
        workers := fun i => if i = 0 then some "d1" else (fun _ => none) i }
      ⟨fun w o h => Option.noConfusion h, fun w1 w2 o e1 e2 => Option.noConfusion e1⟩
      (PoolStep.dequeueAcquire
        { workingOn := fun _ => false, workers := fun _ => none } 0 "d1" rfl rfl)

/-- Helper for C1: full characterization of the partitioning loop of
registerReport, for any starting accumulator and reconciler state.  The loop
never touches agentDevices, appends to the accumulator exactly the links
whose egress agent resolves, and appends every other link - in report
order - to the pending bucket of its egress agent. -/
lemma registerFold_spec (L : List SBLink) (acc : List SBLink) (t : LinkRecState) :
    (L.foldl registerFoldStep (acc, t)).2.agentDevices = t.agentDevices ∧
    (L.foldl registerFoldStep (acc, t)).1 =
      acc ++ L.filter (fun l => (t.agentDevices l.egressDevice).isSome) ∧
    ∀ k, (L.foldl registerFoldStep (acc, t)).2.pendingLinks k =
      (if (L.filter (fun l =>
            (t.agentDevices l.egressDevice).isNone && decide (l.egressDevice = k))).isEmpty
       then t.pendingLinks k
       else some ((t.pendingLinks k).getD [] ++
         L.filter (fun l =>
           (t.agentDevices l.egressDevice).isNone && decide (l.egressDevice = k)))) := by
  induction L generalizing acc t with
  | nil => simp
  | cons l L ih =>
    rcases hl : t.agentDevices l.egressDevice with _ | d
    · have hstep : registerFoldStep (acc, t) l = (acc, addToPendingLinks t l) := by
        simp [registerFoldStep, hl]
      rw [List.foldl_cons, hstep]
      obtain ⟨ih1, ih2, ih3⟩ := ih acc (addToPendingLinks t l)
      have had : (addToPendingLinks t l).agentDevices = t.agentDevices := rfl
      refine ⟨by rw [ih1, had], ?_, ?_⟩
      · rw [ih2, had]
        simp [List.filter_cons, hl]
      · intro k
        rw [ih3 k]
        simp only [had]
        by_cases hk : l.egressDevice = k
        · subst hk
          have hpend : (addToPendingLinks t l).pendingLinks l.egressDevice =
              some ((t.pendingLinks l.egressDevice).getD [] ++ [l]) := by
            rcases hq : t.pendingLinks l.egressDevice with _ | p <;>
              simp [addToPendingLinks, hq]
          rw [hpend]
          simp only [List.filter_cons, hl, Option.isNone_none, Bool.true_and,
            decide_True, List.isEmpty_cons]
          rcases hrest : L.filter (fun l2 =>
              (t.agentDevices l2.egressDevice).isNone &&
              decide (l2.egressDevice = l.egressDevice)) with _ | ⟨r, rs⟩
          · simp [hrest]
          · simp [hrest, List.append_assoc]
        · have hpend : (addToPendingLinks t l).pendingLinks k = t.pendingLinks k := by
            have hks : ¬ (k = l.egressDevice) := fun h => hk h.symm
            simp [addToPendingLinks, hks]
          rw [hpend]
          simp [List.filter_cons, hk]
    · have hstep : registerFoldStep (acc, t) l = (acc ++ [l], t) := by
        simp [registerFoldStep, hl]
      rw [List.foldl_cons, hstep]
      obtain ⟨ih1, ih2, ih3⟩ := ih (acc ++ [l]) t
      refine ⟨ih1, ?_, ?_⟩
      · rw [ih2]
        simp [List.filter_cons, hl]
      · intro k
        rw [ih3 k]
        simp [List.filter_cons, hl]

/-- C1: after registerReport, agentDevices maps the report's agent ID to the
reporting device (and is otherwise unchanged); the returned to-process list
is exactly the report links whose egress agent is registered - the reporting
agent itself included - followed by the links previously pending under the
report's agent ID; that pending bucket is removed; and every report link
with an unregistered egress agent is appended to the pending bucket of its
egress agent ID. -/
theorem registerReport_spec (s : LinkRecState) (object : TopoObject)
    (report : LinkReport) :
    (registerReport s object report).2.agentDevices =
      (fun k => if k = report.agentID then some object else s.agentDevices k) ∧
    (registerReport s object report).1 =
      report.links.filter (fun l =>
        (if l.egressDevice = report.agentID then some object
         else s.agentDevices l.egressDevice).isSome) ++
        (s.pendingLinks report.agentID).getD [] ∧
    (registerReport s object report).2.pendingLinks report.agentID = none ∧
    ∀ k, k ≠ report.agentID →
      (registerReport s object report).2.pendingLinks k =
        (if (report.links.filter (fun l =>
              (if l.egressDevice = report.agentID then some object
               else s.agentDevices l.egressDevice).isNone &&
              decide (l.egressDevice = k))).isEmpty
         then s.pendingLinks k
         else some ((s.pendingLinks k).getD [] ++
           report.links.filter (fun l =>
             (if l.egressDevice = report.agentID then some object
              else s.agentDevices l.egressDevice).isNone &&
             decide (l.egressDevice = k)))) := by
  obtain ⟨h1, h2, h3⟩ := registerFold_spec report.links []
    { s with agentDevices :=
        fun k => if k = report.agentID then some object else s.agentDevices k }
  have hemp : report.links.filter (fun l =>
      ((fun k => if k = report.agentID then some object else s.agentDevices k)
        l.egressDevice).isNone && decide (l.egressDevice = report.agentID)) = [] := by
    apply List.filter_eq_nil_iff.mpr
    intro a _
    by_cases he : a.egressDevice = report.agentID <;> simp [he]
  have hkey : (report.links.foldl registerFoldStep ([],
      { s with agentDevices :=
          fun k => if k = report.agentID then some object else s.agentDevices k })).2.pendingLinks
        report.agentID = s.pendingLinks report.agentID := by
    rw [h3 report.agentID]
    simp only [hemp, List.isEmpty_nil, if_true]
  simp only [registerReport, hkey]
  rcases hp : s.pendingLinks report.agentID with _ | pending
  · refine ⟨h1, ?_, ?_, ?_⟩
    · rw [h2]
      simp [hp]
    · rw [hkey, hp]
    · intro k hk
      rw [h3 k]
  · refine ⟨h1, ?_, ?_, ?_⟩
    · rw [h2]
      simp [hp]
    · simp
    · intro k hk
      have hne : ¬ (k = report.agentID) := hk
      simp only [if_neg hne]
      rw [h3 k]

/-- C1 witness: the two-report scenario of the repository's own unit test:
agent a reports links towards b before b is known (all parked as pending, b's
bucket holding both), then agent b reports; b's report returns its own
resolved links followed by the drained pending bucket of b, which is then
removed. -/
theorem registerReport_spec_witness :
    (registerReport
      { agentDevices := fun _ => none, pendingLinks := fun _ => none }
      { id := "ta", labels := [] }
      { agentID := "a",
        links := [
          { ingressDevice := "a", ingressPort := 1, egressDevice := "b",
            egressPort := 10, createTime := 0 },
          { ingressDevice := "a", ingressPort := 2, egressDevice := "b",
            egressPort := 11, createTime := 0 }] }).1 = [] ∧
    (registerReport
      { agentDevices := fun _ => none, pendingLinks := fun _ => none }
      { id := "ta", labels := [] }
      { agentID := "a",
        links := [
          { ingressDevice := "a", ingressPort := 1, egressDevice := "b",
            egressPort := 10, createTime := 0 },
          { ingressDevice := "a", ingressPort := 2, egressDevice := "b",
            egressPort := 11, createTime := 0 }] }).2.pendingLinks "b" =
      some [
        { ingressDevice := "a", ingressPort := 1, egressDevice := "b",
          egressPort := 10, createTime := 0 },
        { ingressDevice := "a", ingressPort := 2, egressDevice := "b",
          egressPort := 11, createTime := 0 }] := by
  have h := registerReport_spec
    { agentDevices := fun _ => none, pendingLinks := fun _ => none }
    { id := "ta", labels := [] }
    { agentID := "a",
      links := [
        { ingressDevice := "a", ingressPort := 1, egressDevice := "b",
          egressPort := 10, createTime := 0 },
        { ingressDevice := "a", ingressPort := 2, egressDevice := "b",
          egressPort := 11, createTime := 0 }] }
  refine ⟨?_, ?_⟩
  · rw [h.2.1]
    decide
  · rw [h.2.2.2 "b" (by decide)]
    decide

/-- C7: in one port-reconciliation pass, every reported port absent from the
catalog is created with its aspect, the device labels and a has relation from
the device; every reported port present in the catalog has its aspect
rewritten if and only if one of last-change, enabled or status differs; and a
catalog port is deleted if and only if its identifier was not observed in the
report. -/
theorem discoverPorts_spec (dev : TopoObject) (devicePorts : List PortAspect)
    (topoPorts : List (String × PortAspect)) :
    (∀ p, p ∈ devicePorts →
      (topoPorts.lookup (portEntityID dev.id p.number) = none →
        PortAction.createPort (portEntityID dev.id p.number) p dev.labels ∈
          discoverPorts dev devicePorts topoPorts ∧
        PortAction.createHasRelation dev.id (portEntityID dev.id p.number) ∈
          discoverPorts dev devicePorts topoPorts) ∧
      (∀ stored, topoPorts.lookup (portEntityID dev.id p.number) = some stored →
        (PortAction.updatePort (portEntityID dev.id p.number) p ∈
            discoverPorts dev devicePorts topoPorts ↔
          portStateChanged stored p = true))) ∧
    (∀ e, e ∈ topoPorts →
      (PortAction.deletePort e.1 ∈ discoverPorts dev devicePorts topoPorts ↔
        e.1 ∉ devicePorts.map (fun p => portEntityID dev.id p.number))) := by
  constructor
  · intro p hp
    constructor
    · intro hnone
      have hobs : observePort dev topoPorts p =
          [PortAction.createPort (portEntityID dev.id p.number) p dev.labels,
           PortAction.createHasRelation dev.id (portEntityID dev.id p.number)] := by
        simp [observePort, hnone, createPortActions]
      constructor
      · apply List.mem_append_left
        refine List.mem_flatten.mpr ⟨observePort dev topoPorts p, ?_, ?_⟩
        · exact List.mem_map_of_mem _ hp
        · rw [hobs]; exact List.mem_cons_self _ _
      · apply List.mem_append_left
        refine List.mem_flatten.mpr ⟨observePort dev topoPorts p, ?_, ?_⟩
        · exact List.mem_map_of_mem _ hp
        · rw [hobs]; simp
    · intro stored hsome
      constructor
      · intro hmem
        rcases List.mem_append.mp hmem with hf | hd
        · obtain ⟨l2, hl2, hx⟩ := List.mem_flatten.mp hf
          obtain ⟨q, hq, rfl⟩ := List.mem_map.mp hl2
          rcases hq2 : topoPorts.lookup (portEntityID dev.id q.number) with _ | st
          · simp [observePort, hq2, createPortActions] at hx
          · by_cases hch : portStateChanged st q = true
            · simp only [observePort, hq2, updatePortIfNeeded, if_pos hch,
                List.mem_singleton] at hx
              injection hx with hid hqp
              subst hqp
              rw [← hid, hq2] at hsome
              cases hsome
              exact hch
            · simp [observePort, hq2, updatePortIfNeeded, hch] at hx
        · simp only [List.mem_map] at hd
          obtain ⟨e2, _, he2⟩ := hd
          cases he2
      · intro hch
        apply List.mem_append_left
        refine List.mem_flatten.mpr ⟨observePort dev topoPorts p, ?_, ?_⟩
        · exact List.mem_map_of_mem _ hp
        · simp [observePort, hsome, updatePortIfNeeded, hch]
  · intro e he
    constructor
    · intro hmem
      rcases List.mem_append.mp hmem with hf | hd
      · obtain ⟨l2, hl2, hx⟩ := List.mem_flatten.mp hf
        obtain ⟨q, hq, rfl⟩ := List.mem_map.mp hl2
        rcases hq2 : topoPorts.lookup (portEntityID dev.id q.number) with _ | st
        · simp [observePort, hq2, createPortActions] at hx
        · by_cases hch : portStateChanged st q = true
          · simp [observePort, hq2, updatePortIfNeeded, hch] at hx
          · simp [observePort, hq2, updatePortIfNeeded, hch] at hx
      · obtain ⟨e2, he2, heq⟩ := List.mem_map.mp hd
        obtain ⟨_, hcond⟩ := List.mem_filter.mp he2
        have h12 : e2.1 = e.1 := by injection heq
        rw [h12] at hcond
        simpa using hcond
    · intro hnot
      apply List.mem_append_right
      refine List.mem_map.mpr ⟨e, ?_, rfl⟩
      refine List.mem_filter.mpr ⟨he, ?_⟩
      simpa using hnot

/-- C7 witness: the device sw1 reports port 1 with a changed status and a
new port 2, while the catalog holds port 1 with an older aspect and a stale
port 9: port 2 is created with the has relation, port 1 is updated, the
stale port 9 is deleted. -/
theorem discoverPorts_spec_witness :
    PortAction.updatePort "sw1/1" ⟨"p1", 1, 1, "DOWN", 7, "100G", true⟩ ∈
      discoverPorts ⟨"sw1", [("realm", "r")]⟩
        [⟨"p1", 1, 1, "DOWN", 7, "100G", true⟩, ⟨"p2", 2, 2, "UP", 3, "100G", true⟩]
        [("sw1/1", ⟨"p1", 1, 1, "UP", 5, "100G", true⟩),
         ("sw1/9", ⟨"p9", 9, 9, "UP", 5, "100G", true⟩)] ∧
    PortAction.createPort "sw1/2" ⟨"p2", 2, 2, "UP", 3, "100G", true⟩ [("realm", "r")] ∈
      discoverPorts ⟨"sw1", [("realm", "r")]⟩
        [⟨"p1", 1, 1, "DOWN", 7, "100G", true⟩, ⟨"p2", 2, 2, "UP", 3, "100G", true⟩]
        [("sw1/1", ⟨"p1", 1, 1, "UP", 5, "100G", true⟩),
         ("sw1/9", ⟨"p9", 9, 9, "UP", 5, "100G", true⟩)] ∧
    PortAction.deletePort "sw1/9" ∈
      discoverPorts ⟨"sw1", [("realm", "r")]⟩
        [⟨"p1", 1, 1, "DOWN", 7, "100G", true⟩, ⟨"p2", 2, 2, "UP", 3, "100G", true⟩]
        [("sw1/1", ⟨"p1", 1, 1, "UP", 5, "100G", true⟩),
         ("sw1/9", ⟨"p9", 9, 9, "UP", 5, "100G", true⟩)] := by
  have h := discoverPorts_spec ⟨"sw1", [("realm", "r")]⟩
    [⟨"p1", 1, 1, "DOWN", 7, "100G", true⟩, ⟨"p2", 2, 2, "UP", 3, "100G", true⟩]
    [("sw1/1", ⟨"p1", 1, 1, "UP", 5, "100G", true⟩),
     ("sw1/9", ⟨"p9", 9, 9, "UP", 5, "100G", true⟩)]
  refine ⟨?_, ?_, ?_⟩
  · exact ((h.1 ⟨"p1", 1, 1, "DOWN", 7, "100G", true⟩ (by simp)).2
      ⟨"p1", 1, 1, "UP", 5, "100G", true⟩ (by decide)).mpr (by decide)
  · exact ((h.1 ⟨"p2", 2, 2, "UP", 3, "100G", true⟩ (by simp)).1 (by decide)).1
  · exact (h.2 ("sw1/9", ⟨"p9", 9, 9, "UP", 5, "100G", true⟩) (by simp)).mpr (by decide)

end TopoDiscovery
